import Mathlib

/-!
Verification of the Frida Kahlo chatbot (frida_server.py / whisper_test.py).

A shallow embedding of the two source files of the repository, together with
theorems settling the frozen claims about the specification.

Conventions of the embedding:
* Python byte strings become `List Nat` (one entry per byte, each `< 256` at
  the call sites that matter).
* Python dicts used as stores become association lists `List (String × α)`
  with `lookupA` / `insertA` / `eraseA`; real dicts never hold a duplicate
  key, and all states reachable through the embedded operations keep that
  invariant.
* Floating point arithmetic is idealised: exact values use `ℚ`, and the
  square root in the audio-energy computation uses `Real.sqrt`.
* A Python function that can raise is embedded with an `Option`/`Except`
  result, `none`/`.error` marking the raise.
-/

set_option autoImplicit false

namespace Frida

universe u

/-! Section: Association-list maps (Python dict stores) -/

/-- First-match lookup, `d.get(k)` / `k in d`. -/
def lookupA {α : Type u} (k : String) : List (String × α) → Option α
  | [] => none
  | (k₁, v) :: rest => if k₁ = k then some v else lookupA k rest

/-- Assignment `d[k] = v`: replaces the existing entry or appends a new one. -/
def insertA {α : Type u} (k : String) (v : α) : List (String × α) → List (String × α)
  | [] => [(k, v)]
  | (k₁, v₁) :: rest => if k₁ = k then (k, v) :: rest else (k₁, v₁) :: insertA k v rest

/-- Deletion `del d[k]`: removes the entry for `k` (every entry with that key,
which on the duplicate-free states produced by dicts is the one entry). -/
def eraseA {α : Type u} (k : String) : List (String × α) → List (String × α)
  | [] => []
  | (k₁, v₁) :: rest => if k₁ = k then eraseA k rest else (k₁, v₁) :: eraseA k rest

/-! Section: Python string primitives used by `whisper_test.py` -/

/-- Python `str.lower()` (the inputs of interest are ASCII). -/
def pyLower (s : String) : String := String.mk (s.toList.map Char.toLower)

/-- Python `str.strip()`: drop whitespace from both ends. -/
def pyStrip (s : String) : String :=
  String.mk (((s.toList.dropWhile Char.isWhitespace).reverse.dropWhile
    Char.isWhitespace).reverse)

/-- One character of the sentence-separator class `[.!?;]`. -/
def isSentenceSep (c : Char) : Bool := c = '.' || c = '!' || c = '?' || c = ';'

/-- Worker for `re.split(r"[.!?;]+", s)`: a run of separators ends the current
field; `prevSep` records whether the previous character was a separator, so
consecutive separators collapse into a single split point. -/
def reSplitGo : List Char → List Char → Bool → List String
  | [], cur, _ => [String.mk cur.reverse]
  | c :: cs, cur, prevSep =>
    if isSentenceSep c then
      if prevSep then reSplitGo cs cur true
      else String.mk cur.reverse :: reSplitGo cs [] true
    else reSplitGo cs (c :: cur) false

/-- Python `re.split(r"[.!?;]+", s)` as used in `should_exit` (line 284). -/
def reSplitSentences (s : String) : List String := reSplitGo s.toList [] false

/-- Worker for `str.split()` with no argument: split on whitespace runs and
drop empty fields. -/
def pySplitGo : List Char → List Char → List String
  | [], cur => if cur = [] then [] else [String.mk cur.reverse]
  | c :: cs, cur =>
    if c.isWhitespace then
      if cur = [] then pySplitGo cs []
      else String.mk cur.reverse :: pySplitGo cs []
    else pySplitGo cs (c :: cur)

/-- Python `str.split()` with no argument. -/
def pySplit (s : String) : List String := pySplitGo s.toList []

/-- Whether `pat` is a prefix of `s`, on character lists. -/
def isPrefChars : List Char → List Char → Bool
  | [], _ => true
  | _ :: _, [] => false
  | a :: as, b :: bs => a = b && isPrefChars as bs

/-- Whether `pat` occurs contiguously in `s`, on character lists. -/
def hasSubChars : List Char → List Char → Bool
  | pat, [] => isPrefChars pat []
  | pat, _c :: rest => isPrefChars pat (_c :: rest) || hasSubChars pat rest

/-- Python's substring test `pat in s`. -/
def hasSubStr (pat s : String) : Bool := hasSubChars pat.toList s.toList

/-! Section: Exit-intent classifier (`whisper_test.py`, lines 61-63 and 277-319) -/

/-- The list `EXIT_PHRASES` (line 62). -/
def EXIT_PHRASES : List String := ["goodbye", "bye", "exit", "quit", "end conversation", "stop"]

/-- The list `THANK_PHRASES` (line 63). -/
def THANK_PHRASES : List String := ["thank you", "thanks"]

/-- The function `should_exit(text)` (lines 277-319).  The Python `for`-loop returns `True`
as soon as one sentence signals exit intent and `False` after the loop, which
is `List.any` over the per-sentence decision. -/
def should_exit (text : String) : Bool :=
  let text_lower := pyStrip (pyLower text)
  let sentences := reSplitSentences text_lower
  sentences.any fun sent =>
    let sentence := pyStrip sent
    if sentence = "" then false
    else if EXIT_PHRASES.any (fun exit_phrase => exit_phrase = sentence) then true
    else if hasSubStr "?" sentence ||
        (["what", "why", "how", "when", "where", "who", "can"].any fun q_word =>
          hasSubStr (q_word ++ " ") sentence) then false
    else
      let words := pySplit sentence
      if words.length ≤ 4 &&
          THANK_PHRASES.any (fun thank_phrase => hasSubStr thank_phrase sentence) then
        !(["more", "also", "another", "tell", "about"].any fun cont_word =>
            words.any fun w => w = cont_word)
      else false

/-! Section: Conversation data model (`frida_server.py`) -/

/-- One chat message, the dicts `{"role": ..., "content": ...}`. -/
structure Message where
  role : String
  content : String
deriving DecidableEq

/-- The persona preamble `FRIDA_PROMPT` (lines 330-336 of `frida_server.py`,
identical in `whisper_test.py` lines 33-39). -/
def FRIDA_PROMPT : String :=
  "You are Frida Kahlo, the Mexican painter known for your bold art and emotional insight. \nRespond with her voice, tone, and knowledge.\nKeep your responses concise (2-3 sentences maximum) but impactful and authentic to Frida's character.\nUse vivid language that reflects her artistic nature.\nIMPORTANT: ALWAYS end your response with a thoughtful question to the user.\nYour questions should be relevant to the context, your life, art, Mexico, or what the user might be interested in.\nThis is crucial - every response must include a question to keep the conversation flowing."

/-- The list `FILLER_STATEMENTS` (lines 339-350). -/
def FILLER_STATEMENTS : List String :=
  ["Hmm, let me think...",
   "Ah, interesting question...",
   "Let me reflect on that...",
   "How shall I respond...",
   "This reminds me of something...",
   "That's a thoughtful point...",
   "Thinking of my perspective...",
   "Considering this from my experience...",
   "Let me share my thoughts...",
   "Un momento, por favor..."]

/-- The shared `result_dict` of one generation task
(`{"text": None, "audio": None, "completed": False}`, line 518).  The
background thread sets `text` and `audio` before raising `completed`
(lines 497-499), so a completed dict always carries both. -/
structure ResultDict where
  text : Option String
  audio : Option (List Nat)
  completed : Bool
deriving DecidableEq

/-- The two global stores of `frida_server.py`: `sessions` (session id to
conversation history, line 353) and `response_threads` (session id to the
live task's `result_dict`, line 354; the thread handle itself carries no
state the claims need). -/
structure ServerState where
  sessions : List (String × List Message)
  response_threads : List (String × ResultDict)
deriving DecidableEq

/-- A JSON request body with the two optional fields the session endpoints
read. -/
structure ReqBody where
  text : Option String
  session_id : Option String
deriving DecidableEq

/-! Section: Remote gateway and audio generation

The OpenAI client is an external collaborator: a chat completion is a
function from the message list to a reply (or a raised error), and text to
speech is a function from text to audio bytes (or a raised error).  Pure
call sites that cannot observe a failure take the infallible versions. -/

/-- The function `generate_audio(text, cache_key)` (lines 364-379), acting on the
`filler_audio_cache` store.  `tts` is the remote speech call
`client.audio.speech.create(...).content`.  Returns the audio and the
updated cache: a cached key is returned as is, an uncached key is
synthesized and stored only when a key was supplied. -/
def generate_audio (tts : String → List Nat) (cache : List (String × List Nat))
    (text : String) (cache_key : Option String) : List Nat × List (String × List Nat) :=
  match cache_key with
  | some k =>
    match lookupA k cache with
    | some cached => (cached, cache)
    | none =>
      let speech := tts text
      (speech, insertA k speech cache)
  | none => (tts text, cache)

/-- The endpoint `get_filler` (lines 449-470), for the random draw `random.choice(FILLER_STATEMENTS)`
modelled by the index `i`.  Mirrors the Python exactly: the cache miss calls
`generate_audio(filler)` with no `cache_key`, and the Python truthiness test
`if not filler_audio` also regenerates a cached empty byte string.  Returns
`(text, audio, cache)`; the base64 step is an external encoding and is left
out. -/
def get_filler (tts : String → List Nat) (cache : List (String × List Nat))
    (i : Fin 10) : String × List Nat × List (String × List Nat) :=
  let filler := FILLER_STATEMENTS.getD i.val ""
  match lookupA filler cache with
  | some filler_audio =>
    if filler_audio = [] then
      let generated := generate_audio tts cache filler none
      (filler, generated.1, generated.2)
    else (filler, filler_audio, cache)
  | none =>
    let generated := generate_audio tts cache filler none
    (filler, generated.1, generated.2)

/-! Section: Response generation (`frida_server.py`, lines 473-528) -/

/-- The message list the background thread sends to the chat completion:
lines 478-480, persona preamble, then the history read from the session
store, then the new user turn. -/
def server_messages (conversation_history : List Message) (user_text : String) :
    List Message :=
  ⟨"system", FRIDA_PROMPT⟩ :: (conversation_history ++ [⟨"user", user_text⟩])

/-- The tail of `generate_response_thread` (lines 477-499) after the history
was read at line 475: build the messages, call the model, append both new
turns and write the history back into `sessions`, synthesize speech, then
publish the result.  An `.error` from a remote call is the raised exception:
the thread dies on the spot and everything written so far stays.  The
in-place mutation of `result_dict` is visible through `response_threads`
exactly while the store still holds this task's entry, so it is written
through the store's entry for the session (and lost when `end_session`
removed it). -/
def generate_response_thread_finish (chat : List Message → Except String String)
    (tts : String → Except String (List Nat)) (user_text session_id : String)
    (conversation_history : List Message) (st : ServerState) : ServerState :=
  let messages := server_messages conversation_history user_text
  match chat messages with
  | .error _ => st
  | .ok frida_response =>
    let conversation_history := conversation_history ++
      [⟨"user", user_text⟩, ⟨"assistant", frida_response⟩]
    let st₁ : ServerState :=
      { st with sessions := insertA session_id conversation_history st.sessions }
    match tts frida_response with
    | .error _ => st₁
    | .ok speech_audio =>
      match lookupA session_id st₁.response_threads with
      | none => st₁
      | some _ =>
        let published : ResultDict := ⟨some frida_response, some speech_audio, true⟩
        { st₁ with response_threads := insertA session_id published st₁.response_threads }

/-- The function `generate_response_thread` (lines 473-499) run to completion in one piece:
read the history (line 475, `sessions.get(session_id, [])`), then the rest. -/
def generate_response_thread (chat : List Message → Except String String)
    (tts : String → Except String (List Nat)) (user_text session_id : String)
    (st : ServerState) : ServerState :=
  generate_response_thread_finish chat tts user_text session_id
    ((lookupA session_id st.sessions).getD []) st

/-- Outcome of `POST /get_response`. -/
inductive GetRespOutcome where
  | error400
  | processing
deriving DecidableEq

/-- The endpoint `get_response` (lines 502-528): validate that `text` is present, default
the session id to `"default"`, create the session if unknown, register a
fresh pending `result_dict` and spawn the background thread.  The spawned
thread is the separate `generate_response_thread` applied later; this
function only records the pending task. -/
def get_response (st : ServerState) (data : Option ReqBody) :
    GetRespOutcome × ServerState :=
  match data with
  | none => (.error400, st)
  | some d =>
    match d.text with
    | none => (.error400, st)
    | some _user_text =>
      let session_id := d.session_id.getD "default"
      let st₁ : ServerState :=
        if (lookupA session_id st.sessions).isSome then st
        else { st with sessions := insertA session_id [] st.sessions }
      let result_dict : ResultDict := ⟨none, none, false⟩
      (.processing,
       { st₁ with response_threads := insertA session_id result_dict st₁.response_threads })

/-- One word-timing entry of the SALSA table (lines 560-571), with exact
rationals in place of the Python floats. -/
structure PhonemeEntry where
  word : String
  start_time : ℚ
  end_time : ℚ
deriving DecidableEq

/-- The loop of lines 560-571: 75 ms per character per word and a 100 ms gap
between consecutive words. -/
def phonemeData : List String → ℚ → List PhonemeEntry
  | [], _ => []
  | word :: rest, current_time =>
    let word_duration : ℚ := (word.length : ℚ) * (3 / 40)
    ⟨word, current_time, current_time + word_duration⟩ ::
      phonemeData rest (current_time + word_duration + 1 / 10)

/-- Outcome of `POST /check_response`.  The audio travels as its bytes; the
base64 step is an external encoding. -/
inductive CheckOutcome where
  | notFound404
  | processing
  | completed (text : String) (audio : List Nat) (duration : ℚ)
      (phoneme_data : List PhonemeEntry)
deriving DecidableEq

/-- The clean-up `del response_threads[session_id]` of line 574, as a state
transformer. -/
def consumeTask (session_id : String) (st : ServerState) : ServerState :=
  { st with response_threads := eraseA session_id st.response_threads }

/-- The endpoint `check_response` (lines 531-584): default the session id to `"default"`;
404 when no task is registered; `processing` while the `completed` flag is
down; otherwise build the payload (duration estimate 0.3 s per word and the
word-timing table), delete the task from `response_threads` and return the
result. -/
def check_response (st : ServerState) (data : ReqBody) :
    CheckOutcome × ServerState :=
  let session_id := data.session_id.getD "default"
  match lookupA session_id st.response_threads with
  | none => (.notFound404, st)
  | some result_dict =>
    if result_dict.completed = false then (.processing, st)
    else
      let frida_response := result_dict.text.getD ""
      let speech_audio := result_dict.audio.getD []
      let words := pySplit frida_response
      let estimated_duration : ℚ := (words.length : ℚ) * (3 / 10)
      let phoneme_data := phonemeData words 0
      (.completed frida_response speech_audio estimated_duration phoneme_data,
       consumeTask session_id st)

/-- Outcome of `POST /end_session`. -/
inductive EndOutcome where
  | ended
  | notFound404
deriving DecidableEq

/-- The endpoint `end_session` (lines 587-600): `data.get("session_id")` with no default;
the Python truthiness guard `if session_id and session_id in sessions` makes
a missing or empty id a 404; on success the session is deleted and a pending
task entry is deleted with it. -/
def end_session (st : ServerState) (data : ReqBody) : EndOutcome × ServerState :=
  match data.session_id with
  | none => (.notFound404, st)
  | some session_id =>
    if session_id ≠ "" ∧ (lookupA session_id st.sessions).isSome then
      let sessions₁ := eraseA session_id st.sessions
      let threads₁ :=
        if (lookupA session_id st.response_threads).isSome then
          eraseA session_id st.response_threads
        else st.response_threads
      (.ended, ⟨sessions₁, threads₁⟩)
    else (.notFound404, st)

/-! Section: CLI prompt construction (`whisper_test.py`, lines 169-196) -/

/-- The message list `get_frida_response` sends: lines 174-181.  A history of
more than 20 turns is cut down to its first turn plus its last 18
(`[conversation_history[0]] + conversation_history[-18:]`) before the
persona preamble and the new user turn are wrapped around it. -/
def get_frida_response_messages (user_text : String)
    (conversation_history : List Message) : List Message :=
  let conversation_history :=
    if 20 < conversation_history.length then
      conversation_history.take 1 ++
        conversation_history.drop (conversation_history.length - 18)
    else conversation_history
  ⟨"system", FRIDA_PROMPT⟩ :: (conversation_history ++ [⟨"user", user_text⟩])

/-- The function `get_frida_response` (lines 169-196): the remote completion applied to
the constructed messages. -/
def get_frida_response (chat : List Message → Except String String)
    (user_text : String) (conversation_history : List Message) :
    Except String String :=
  chat (get_frida_response_messages user_text conversation_history)

/-! Section: Audio energy (`whisper_test.py`, lines 70-79)

`struct.unpack(f"{count}h", data)` with `count = len(data) // width` reads
`count` little-endian signed 16-bit integers and raises `struct.error`
unless the buffer length equals the struct size exactly, so an odd-length
byte string raises.  The raise is the `none` result. -/

/-- One little-endian signed 16-bit sample from two bytes. -/
def toSigned16 (lo hi : Nat) : ℤ :=
  let u := lo % 256 + 256 * (hi % 256)
  if u < 32768 then (u : ℤ) else (u : ℤ) - 65536

/-- Python `struct.unpack(f"{count}h", data)`: `none` is the `struct.error` raised
when the byte count is odd. -/
def unpackShorts : List Nat → Option (List ℤ)
  | [] => some []
  | [_] => none
  | lo :: hi :: rest => (unpackShorts rest).map (fun l => toSigned16 lo hi :: l)

/-- The function `get_rms(data, width)` (lines 70-79): unpack the samples (format `"h"`
for `width == 2`, unsigned bytes `"B"` otherwise), then the square root of
the mean square, and `0` for an empty frame.  `none` is a raised
`struct.error`. -/
noncomputable def get_rms (data : List Nat) (width : Nat) : Option ℝ :=
  let count := data.length / width
  let shorts? : Option (List ℤ) :=
    if width = 2 then unpackShorts data
    else if data.length = count then
      some (data.map (fun b => ((b % 256 : Nat) : ℤ)))
    else none
  match shorts? with
  | none => none
  | some shorts =>
    let sum_squares : ℤ := (shorts.map (fun s => s * s)).sum
    some (if 0 < count then Real.sqrt ((sum_squares : ℝ) / (count : ℝ)) else 0)

/-! Section: Voice-activity-triggered capture (`whisper_test.py`, lines 82-166)

The capture loop is a state machine over the incoming frame stream.  The
audio device and the WAV write-out are external; the loop body of lines
113-145 is embedded one frame at a time. -/

/-- Lines 121-124: push the frame into the pre-roll ring and evict the
oldest entry when the ring has outgrown its capacity. -/
def ringPush (num_pre_buffer_chunks : Nat) (pre_buffer : List (List Nat))
    (data : List Nat) : List (List Nat) :=
  let pre_buffer := pre_buffer ++ [data]
  if num_pre_buffer_chunks < pre_buffer.length then pre_buffer.drop 1 else pre_buffer

/-- The loop-carried state of `record_audio`: `frames`, `silent_chunks`,
`audio_started` and `pre_buffer` (lines 104-111). -/
structure VadState where
  frames : List (List Nat)
  silent_chunks : Nat
  audio_started : Bool
  pre_buffer : List (List Nat)
deriving DecidableEq

/-- The effect of one loop iteration: the loop crashed (`get_rms` raised),
broke out (`stop`), or went on to the next frame (`next`). -/
inductive VadStep where
  | crash
  | stop (s : VadState)
  | next (s : VadState)
deriving DecidableEq

open Classical in
/-- One iteration of the capture loop (lines 113-145) on the frame `data`.
In the waiting phase the frame joins the pre-roll ring; energy above the
threshold flushes the ring plus the frame into `frames` and starts
recording.  In the recording phase the frame always joins `frames`; energy
strictly below the threshold counts the frame as silence, and the
accumulated silence `silent_chunks * chunk / sample_rate` reaching the
silence limit breaks the loop; any other energy resets the counter. -/
noncomputable def record_step (chunk sample_rate : Nat)
    (threshold silence_limit : ℚ) (num_pre_buffer_chunks : Nat)
    (s : VadState) (data : List Nat) : VadStep :=
  match get_rms data 2 with
  | none => .crash
  | some rms =>
    if s.audio_started = false then
      let pre_buffer := ringPush num_pre_buffer_chunks s.pre_buffer data
      if (threshold : ℝ) < rms then
        .next ⟨s.frames ++ pre_buffer ++ [data], 0, true, pre_buffer⟩
      else
        .next ⟨s.frames, s.silent_chunks, s.audio_started, pre_buffer⟩
    else
      let frames := s.frames ++ [data]
      if rms < (threshold : ℝ) then
        let silent_chunks := s.silent_chunks + 1
        if silence_limit ≤ ((silent_chunks * chunk : Nat) : ℚ) / (sample_rate : ℚ) then
          .stop ⟨frames, silent_chunks, s.audio_started, s.pre_buffer⟩
        else
          .next ⟨frames, silent_chunks, s.audio_started, s.pre_buffer⟩
      else
        .next ⟨frames, 0, s.audio_started, s.pre_buffer⟩

/-- The capture loop over a frame stream: run `record_step` until the stream
(at most `max_chunks` frames) is exhausted or the loop breaks.  `none` is a
crash of the loop. -/
noncomputable def record_loop (chunk sample_rate : Nat)
    (threshold silence_limit : ℚ) (num_pre_buffer_chunks : Nat) :
    List (List Nat) → VadState → Option VadState
  | [], s => some s
  | data :: rest, s =>
    match record_step chunk sample_rate threshold silence_limit
        num_pre_buffer_chunks s data with
    | .crash => none
    | .stop s₁ => some s₁
    | .next s₁ => record_loop chunk sample_rate threshold silence_limit
        num_pre_buffer_chunks rest s₁

/-- The function `record_audio(max_seconds, sample_rate)` (lines 82-166) applied to the
frame stream the device yields: constants of lines 84-111 (`chunk = 1024`,
`threshold = 300`, `silence_limit = 2.5`, pre-roll capacity
`int(0.5 * sample_rate / chunk)`, at most
`int(sample_rate / chunk * max_seconds)` reads), then the loop.  The outer
`none` is a crashed loop; the inner `none` is the "no speech detected"
outcome of lines 151-154, and otherwise the recorded frame buffer is
returned (the temporary WAV file is external). -/
noncomputable def record_audio (max_seconds sample_rate : Nat)
    (stream : List (List Nat)) : Option (Option (List (List Nat))) :=
  let chunk : Nat := 1024
  let threshold : ℚ := 300
  let silence_limit : ℚ := 5 / 2
  let max_chunks : Nat := (((sample_rate : ℚ) / (chunk : ℚ) * (max_seconds : ℚ)).floor).toNat
  let num_pre_buffer_chunks : Nat :=
    (((1 / 2 : ℚ) * (sample_rate : ℚ) / (chunk : ℚ)).floor).toNat
  (record_loop chunk sample_rate threshold silence_limit num_pre_buffer_chunks
      (stream.take max_chunks) ⟨[], 0, false, []⟩).map
    (fun s => if s.audio_started = true then some s.frames else none)


/-! Section: Shared helper lemmas -/

lemma lookupA_insertA_self {α : Type u} (k : String) (v : α) (l : List (String × α)) :
    lookupA k (insertA k v l) = some v := by
  induction l with
  | nil => simp [insertA, lookupA]
  | cons p rest ih =>
    obtain ⟨k₁, v₁⟩ := p
    by_cases h : k₁ = k <;> simp [insertA, lookupA, h, ih]

lemma lookupA_eraseA_self {α : Type u} (k : String) (l : List (String × α)) :
    lookupA k (eraseA k l) = none := by
  induction l with
  | nil => simp [eraseA, lookupA]
  | cons p rest ih =>
    obtain ⟨k₁, v₁⟩ := p
    by_cases h : k₁ = k <;> simp [eraseA, lookupA, h, ih]

lemma get_rms_silent : get_rms [0, 0] 2 = some 0 := by
  simp [get_rms, unpackShorts, toSigned16]

lemma get_rms_nil : get_rms [] 2 = some 0 := by
  simp [get_rms, unpackShorts]

lemma get_rms_odd : get_rms [0] 2 = none := by
  simp [get_rms, unpackShorts]

lemma get_rms_loud : get_rms [0, 64] 2 = some 16384 := by
  simp [get_rms, unpackShorts, toSigned16]
  rw [show (268435456 : ℝ) = 16384 ^ 2 by norm_num,
    Real.sqrt_sq (by norm_num : (0:ℝ) ≤ 16384)]

lemma get_rms_threshold : get_rms [44, 1] 2 = some 300 := by
  simp [get_rms, unpackShorts, toSigned16]
  rw [show (90000 : ℝ) = 300 ^ 2 by norm_num,
    Real.sqrt_sq (by norm_num : (0:ℝ) ≤ 300)]

lemma ringPush_getLast (num_pre : Nat) (pb : List (List Nat)) (d : List Nat)
    (h : 0 < num_pre) : (ringPush num_pre pb d).getLast? = some d := by
  unfold ringPush
  by_cases hc : num_pre < (pb ++ [d]).length
  · rw [if_pos hc]
    cases pb with
    | nil => simp at hc; omega
    | cons a t => simp
  · rw [if_neg hc]
    simp

lemma record_step_waiting_trigger (chunk sample_rate : Nat)
    (threshold silence_limit : ℚ) (num_pre : Nat) (s : VadState) (data : List Nat)
    (r : ℝ) (hs : s.audio_started = false) (hr : get_rms data 2 = some r)
    (ht : (threshold : ℝ) < r) :
    record_step chunk sample_rate threshold silence_limit num_pre s data =
      .next ⟨s.frames ++ ringPush num_pre s.pre_buffer data ++ [data], 0, true,
        ringPush num_pre s.pre_buffer data⟩ := by
  simp [record_step, hr, hs, ht]

lemma record_step_waiting_quiet (chunk sample_rate : Nat)
    (threshold silence_limit : ℚ) (num_pre : Nat) (s : VadState) (data : List Nat)
    (r : ℝ) (hs : s.audio_started = false) (hr : get_rms data 2 = some r)
    (ht : ¬ (threshold : ℝ) < r) :
    record_step chunk sample_rate threshold silence_limit num_pre s data =
      .next ⟨s.frames, s.silent_chunks, s.audio_started,
        ringPush num_pre s.pre_buffer data⟩ := by
  simp [record_step, hr, hs, ht]

lemma record_step_recording_silent (chunk sample_rate : Nat)
    (threshold silence_limit : ℚ) (num_pre : Nat) (s : VadState) (data : List Nat)
    (r : ℝ) (hs : s.audio_started = true) (hr : get_rms data 2 = some r)
    (hlt : r < (threshold : ℝ)) :
    record_step chunk sample_rate threshold silence_limit num_pre s data =
      (if silence_limit ≤ (((s.silent_chunks + 1) * chunk : Nat) : ℚ) / (sample_rate : ℚ)
       then .stop ⟨s.frames ++ [data], s.silent_chunks + 1, s.audio_started, s.pre_buffer⟩
       else .next ⟨s.frames ++ [data], s.silent_chunks + 1, s.audio_started, s.pre_buffer⟩) := by
  simp only [record_step, hr, hs]
  rw [if_neg (by simp)]
  rw [if_pos hlt]

lemma record_step_recording_loud (chunk sample_rate : Nat)
    (threshold silence_limit : ℚ) (num_pre : Nat) (s : VadState) (data : List Nat)
    (r : ℝ) (hs : s.audio_started = true) (hr : get_rms data 2 = some r)
    (hge : ¬ r < (threshold : ℝ)) :
    record_step chunk sample_rate threshold silence_limit num_pre s data =
      .next ⟨s.frames ++ [data], 0, s.audio_started, s.pre_buffer⟩ := by
  simp only [record_step, hr, hs]
  rw [if_neg (by simp)]
  rw [if_neg hge]

/-! Section: Concrete collaborators and states used by the closed theorems -/

/-- A chat completion whose remote call raises. -/
def exChatFail : List Message → Except String String := fun _ => .error "model call failed"

/-- A chat completion that answers. -/
def exChatOk : List Message → Except String String := fun _ => .ok "Reply. Question?"

/-- A speech synthesis that answers. -/
def exTtsOk : String → Except String (List Nat) := fun _ => .ok [0]

/-- A speech synthesis whose remote call raises. -/
def exTtsFail : String → Except String (List Nat) := fun _ => .error "speech call failed"

/-- A pure speech synthesis for the filler cache. -/
def exTts : String → List Nat := fun _ => [1, 2, 3]

/-- A server with one session `"s"` and one pending generation task for it. -/
def exSt1 : ServerState := ⟨[("s", [])], [("s", ⟨none, none, false⟩)]⟩

/-- A completed task. -/
def exRd4 : ResultDict := ⟨some "hola mundo", some [1, 2], true⟩

/-- A server holding the completed task `exRd4` for the `"default"` session. -/
def exSt4 : ServerState := ⟨[], [("default", exRd4)]⟩

/-- A conversation history of 21 turns. -/
def exHist21 : List Message := List.replicate 21 ⟨"user", "x"⟩

/-! Section: The claims -/

/-- Claim C1 (code bug): when the remote model call or the speech call raises
during background generation, `generate_response_thread` dies without ever
recording a failure — there is no terminal failed state in the code — so
`check_response` keeps answering `processing` with an unchanged state, and
therefore answers `processing` on every subsequent poll, forever.  Shown on
a concrete pending session for both failure points. -/
theorem c1_failure_polls_processing_forever :
    generate_response_thread exChatFail exTtsOk "hola" "s" exSt1 = exSt1 ∧
    check_response exSt1 ⟨none, some "s"⟩ = (.processing, exSt1) ∧
    check_response (generate_response_thread exChatOk exTtsFail "hola" "s" exSt1)
        ⟨none, some "s"⟩
      = (.processing, generate_response_thread exChatOk exTtsFail "hola" "s" exSt1) := by
  decide

/-- Claim C2 (code bug): `end_session` removes session `"s"` and its pending
task, but a generation task that captured the history before the destruction
writes the history back on completion (line 491), so the destroyed session
identifier reappears in the session store with the task's appended turns. -/
theorem c2_resurrected_session :
    end_session ⟨[("s", [⟨"assistant", "hola"⟩])], [("s", ⟨none, none, false⟩)]⟩
        ⟨none, some "s"⟩
      = (.ended, ⟨[], []⟩) ∧
    lookupA "s" (generate_response_thread_finish exChatOk exTtsOk "hi" "s"
        [⟨"assistant", "hola"⟩] ⟨[], []⟩).sessions
      = some [⟨"assistant", "hola"⟩, ⟨"user", "hi"⟩, ⟨"assistant", "Reply. Question?"⟩] := by
  decide

/-- Claim C3 (code bug): `should_exit` returns `true` on the spec's example
"Can you tell me more about your art? Thanks." — the question-mark guard only
skips the question sentence itself, and the trailing "Thanks." sentence alone
trips the gratitude rule — and likewise on the example named in the code's
own comment at lines 296-297. -/
theorem c3_question_gratitude_exits :
    should_exit "Can you tell me more about your art? Thanks." = true ∧
    should_exit "Can you tell me about your art? Thanks." = true := by
  decide

/-- Claim C4 (confirmed): delivery of a completed generation result is
one-shot.  For any session whose task is completed, `check_response` returns
the completed payload (text, audio and the derived timing data) and deletes
the task, and a second `check_response` in the resulting state answers 404. -/
theorem c4_one_shot (st : ServerState) (data : ReqBody) (rd : ResultDict)
    (txt : String) (au : List Nat)
    (h : lookupA (data.session_id.getD "default") st.response_threads = some rd)
    (hc : rd.completed = true) (ht : rd.text = some txt) (ha : rd.audio = some au) :
    check_response st data =
      (.completed txt au ((pySplit txt).length * (3 / 10) : ℚ) (phonemeData (pySplit txt) 0),
       consumeTask (data.session_id.getD "default") st) ∧
    lookupA (data.session_id.getD "default")
      (consumeTask (data.session_id.getD "default") st).response_threads = none ∧
    check_response (consumeTask (data.session_id.getD "default") st) data
      = (.notFound404, consumeTask (data.session_id.getD "default") st) := by
  refine ⟨?_, lookupA_eraseA_self _ _, ?_⟩
  · simp [check_response, h, hc, ht, ha]
  · simp [check_response, consumeTask, lookupA_eraseA_self]

/-- Witness for C4 at a concrete completed task. -/
theorem c4_one_shot_witness :
    lookupA "default" exSt4.response_threads = some exRd4 ∧
    exRd4.completed = true ∧ exRd4.text = some "hola mundo" ∧ exRd4.audio = some [1, 2] ∧
    (check_response exSt4 ⟨none, none⟩ =
      (.completed "hola mundo" [1, 2] ((pySplit "hola mundo").length * (3 / 10) : ℚ)
        (phonemeData (pySplit "hola mundo") 0),
       consumeTask "default" exSt4) ∧
     lookupA "default" (consumeTask "default" exSt4).response_threads = none ∧
     check_response (consumeTask "default" exSt4) ⟨none, none⟩
       = (.notFound404, consumeTask "default" exSt4)) :=
  ⟨rfl, rfl, rfl, rfl,
   c4_one_shot exSt4 ⟨none, none⟩ exRd4 "hola mundo" [1, 2] rfl rfl rfl rfl⟩

/-- Claim C5 (counterexample): the claim as stated — the buffer at the
trigger moment is the pre-roll frames from before the trigger, each once,
followed by the triggering frame once — is false.  From the waiting state
the quiet frame `[0,0]` (energy 0) fills the ring; the loud frame `[0,64]`
(energy 16384 > 300) is pushed into the ring before the flush, so the flush
emits it once from the ring and appends it once more: the buffer is
`[[0,0],[0,64],[0,64]]`, not `[[0,0]] ++ [[0,64]]`. -/
theorem c5_counterexample :
    record_step 1024 16000 300 (5 / 2) 7 ⟨[], 0, false, []⟩ [0, 0]
      = .next ⟨[], 0, false, [[0, 0]]⟩ ∧
    record_step 1024 16000 300 (5 / 2) 7 ⟨[], 0, false, [[0, 0]]⟩ [0, 64]
      = .next ⟨[[0, 0], [0, 64], [0, 64]], 0, true, [[0, 0], [0, 64]]⟩ ∧
    ([[0, 0], [0, 64], [0, 64]] : List (List Nat)) ≠ [[0, 0]] ++ [[0, 64]] := by
  refine ⟨?_, ?_, by decide⟩
  · rw [record_step_waiting_quiet 1024 16000 300 (5 / 2) 7 ⟨[], 0, false, []⟩ [0, 0] 0
      rfl get_rms_silent (by norm_num)]
    decide
  · rw [record_step_waiting_trigger 1024 16000 300 (5 / 2) 7 ⟨[], 0, false, [[0, 0]]⟩
      [0, 64] 16384 rfl get_rms_loud (by norm_num)]
    decide

/-- Claim C5 (amended): on the first frame with energy above the threshold,
the engine transitions from waiting to recording with the silence counter
reset, and the utterance buffer receives the pre-roll ring *after the
triggering frame was pushed into it* followed by the triggering frame once
more — so the ring contents end with the trigger and the trigger lands in
the buffer twice, while the pre-roll frames captured just before it are all
included. -/
theorem c5_preroll_flush (chunk sample_rate : Nat) (threshold silence_limit : ℚ)
    (num_pre : Nat) (s : VadState) (data : List Nat) (r : ℝ) (hnum : 0 < num_pre)
    (hs : s.audio_started = false) (hr : get_rms data 2 = some r)
    (ht : (threshold : ℝ) < r) :
    record_step chunk sample_rate threshold silence_limit num_pre s data =
      .next ⟨s.frames ++ ringPush num_pre s.pre_buffer data ++ [data], 0, true,
        ringPush num_pre s.pre_buffer data⟩ ∧
    (ringPush num_pre s.pre_buffer data).getLast? = some data :=
  ⟨record_step_waiting_trigger _ _ _ _ _ _ _ _ hs hr ht,
   ringPush_getLast _ _ _ hnum⟩

/-- Witness for the amended C5 at the concrete trigger. -/
theorem c5_preroll_flush_witness :
    (0 : Nat) < 7 ∧ ((⟨[], 0, false, [[0, 0]]⟩ : VadState).audio_started = false) ∧
    get_rms [0, 64] 2 = some 16384 ∧ ((300 : ℚ) : ℝ) < 16384 ∧
    (record_step 1024 16000 300 (5 / 2) 7 ⟨[], 0, false, [[0, 0]]⟩ [0, 64] =
      .next ⟨[] ++ ringPush 7 [[0, 0]] [0, 64] ++ [[0, 64]], 0, true,
        ringPush 7 [[0, 0]] [0, 64]⟩ ∧
     (ringPush 7 [[0, 0]] [0, 64]).getLast? = some [0, 64]) :=
  ⟨by decide, rfl, get_rms_loud, by norm_num,
   c5_preroll_flush 1024 16000 300 (5 / 2) 7 ⟨[], 0, false, [[0, 0]]⟩ [0, 64] 16384
     (by decide) rfl get_rms_loud (by norm_num)⟩

/-- Claim C6 (counterexample): the claim says a frame with energy exactly
equal to the threshold counts as silence and increments the counter.  The
frame `[44, 1]` has energy exactly 300; in the recording state with one
accumulated silent chunk the code takes the `rms < threshold` test to be
false and resets the counter to 0 instead of incrementing it to 2. -/
theorem c6_counterexample :
    get_rms [44, 1] 2 = some ((300 : ℚ) : ℝ) ∧
    record_step 1024 16000 300 (5 / 2) 7 ⟨[], 1, true, []⟩ [44, 1]
      = .next ⟨[[44, 1]], 0, true, []⟩ ∧
    record_step 1024 16000 300 (5 / 2) 7 ⟨[], 1, true, []⟩ [44, 1]
      ≠ .next ⟨[[44, 1]], 2, true, []⟩ := by
  have h : record_step 1024 16000 300 (5 / 2) 7 ⟨[], 1, true, []⟩ [44, 1]
      = .next ⟨[] ++ [[44, 1]], 0, true, []⟩ :=
    record_step_recording_loud 1024 16000 300 (5 / 2) 7 ⟨[], 1, true, []⟩ [44, 1] 300
      rfl get_rms_threshold (by norm_num)
  refine ⟨by rw [get_rms_threshold]; norm_num, by rw [h]; decide, by rw [h]; decide⟩

/-- Claim C6 (amended): while recording, a frame with energy strictly below
the threshold increments the elapsed-silence counter and recording stops
exactly when the accumulated silence `silent_chunks * chunk / sample_rate`
reaches the silence limit; a frame with energy greater than *or equal to*
the threshold resets the counter to zero — a frame at exactly the threshold
counts as speech, not silence. -/
theorem c6_silence_step (chunk sample_rate : Nat) (threshold silence_limit : ℚ)
    (num_pre : Nat) (s : VadState) (data : List Nat) (r : ℝ)
    (hs : s.audio_started = true) (hr : get_rms data 2 = some r) :
    (r < (threshold : ℝ) →
      record_step chunk sample_rate threshold silence_limit num_pre s data =
        (if silence_limit ≤ (((s.silent_chunks + 1) * chunk : Nat) : ℚ) / (sample_rate : ℚ)
         then .stop ⟨s.frames ++ [data], s.silent_chunks + 1, true, s.pre_buffer⟩
         else .next ⟨s.frames ++ [data], s.silent_chunks + 1, true, s.pre_buffer⟩)) ∧
    ((threshold : ℝ) ≤ r →
      record_step chunk sample_rate threshold silence_limit num_pre s data =
        .next ⟨s.frames ++ [data], 0, true, s.pre_buffer⟩) := by
  constructor
  · intro hlt
    rw [record_step_recording_silent chunk sample_rate threshold silence_limit num_pre
      s data r hs hr hlt, hs]
  · intro hge
    rw [record_step_recording_loud chunk sample_rate threshold silence_limit num_pre
      s data r hs hr (not_lt.mpr hge), hs]

/-- Witness for the amended C6 with the real parameters: a silent frame at 39
accumulated chunks stops the recording (2.56 s ≥ 2.5 s), one at 38 does not
(2.496 s < 2.5 s). -/
theorem c6_silence_step_witness :
    get_rms [0, 0] 2 = some 0 ∧ (0 : ℝ) < ((300 : ℚ) : ℝ) ∧
    record_step 1024 16000 300 (5 / 2) 7 ⟨[], 39, true, []⟩ [0, 0]
      = .stop ⟨[[0, 0]], 40, true, []⟩ ∧
    record_step 1024 16000 300 (5 / 2) 7 ⟨[], 38, true, []⟩ [0, 0]
      = .next ⟨[[0, 0]], 39, true, []⟩ := by
  refine ⟨get_rms_silent, by norm_num, ?_, ?_⟩
  · have h := (c6_silence_step 1024 16000 300 (5 / 2) 7 ⟨[], 39, true, []⟩ [0, 0] 0
      rfl get_rms_silent).1 (by norm_num)
    rw [h, if_pos (by norm_num)]
    decide
  · have h := (c6_silence_step 1024 16000 300 (5 / 2) 7 ⟨[], 38, true, []⟩ [0, 0] 0
      rfl get_rms_silent).1 (by norm_num)
    rw [h, if_neg (by norm_num)]
    decide

/-- Claim C7 (counterexample): in the CLI variant a 21-turn history is not
replayed in full — `get_frida_response` keeps only the first turn and the
last 18 — so the message list is not the persona preamble followed by all
prior turns and the new user turn. -/
theorem c7_counterexample :
    get_frida_response_messages "q" exHist21 ≠
      ⟨"system", FRIDA_PROMPT⟩ :: (exHist21 ++ [⟨"user", "q"⟩]) := by
  intro h
  have hl := congrArg List.length h
  simp [get_frida_response_messages, exHist21] at hl

/-- Claim C7 (amended): the server's generation thread sends exactly the
persona preamble, then all of the session's prior turns verbatim in order,
then the new user turn.  The CLI's `get_frida_response` does the same for a
history of at most 20 turns, and for a longer history replays the first turn
plus the last 18 — a subsequence of the history, in order, but with the
middle turns dropped. -/
theorem c7_prompt_replay (hist : List Message) (u : String) :
    server_messages hist u = ⟨"system", FRIDA_PROMPT⟩ :: (hist ++ [⟨"user", u⟩]) ∧
    get_frida_response_messages u hist =
      ⟨"system", FRIDA_PROMPT⟩ ::
        ((if 20 < hist.length then hist.take 1 ++ hist.drop (hist.length - 18) else hist) ++
          [⟨"user", u⟩]) ∧
    List.Sublist
      (if 20 < hist.length then hist.take 1 ++ hist.drop (hist.length - 18) else hist)
      hist := by
  refine ⟨rfl, rfl, ?_⟩
  by_cases h : 20 < hist.length
  · rw [if_pos h]
    have h1 : hist.drop (hist.length - 18) = (hist.drop 1).drop (hist.length - 19) := by
      rw [List.drop_drop]
      congr 1
      omega
    have h2 : List.Sublist (hist.take 1 ++ hist.drop (hist.length - 18))
        (hist.take 1 ++ hist.drop 1) := by
      rw [h1]
      exact (List.Sublist.refl _).append (List.drop_sublist _ _)
    rw [List.take_append_drop 1 hist] at h2
    exact h2
  · rw [if_neg h]

/-- Claim C8 (code bug): `get_rms` raises `struct.error` on an odd-length
frame — `struct.unpack` demands a buffer of exactly `2 * (len // 2)` bytes —
instead of treating the malformed frame as zero energy; the empty frame does
return zero. -/
theorem c8_odd_frame_raises :
    get_rms [0] 2 = none ∧ get_rms [] 2 = some 0 :=
  ⟨get_rms_odd, get_rms_nil⟩

/-- Claim C9 (counterexample): on a cache miss `get_filler` synthesizes the
phrase audio with *no* cache key, so nothing is stored: after a call on the
empty cache the phrase is still absent, and a later request would synthesize
again instead of being served from the cache. -/
theorem c9_counterexample :
    (get_filler exTts [] 0).2.1 = [1, 2, 3] ∧
    (get_filler exTts [] 0).2.2 = [] ∧
    lookupA "Hmm, let me think..." (get_filler exTts [] 0).2.2 = none := by
  decide

/-- Claim C9 (amended): `get_filler` selects its phrase from the fixed filler
set (the random draw reaches every index) and never writes to the filler
cache: a cache hit is returned as is and a miss is synthesized on demand but
not stored. -/
theorem c9_no_store (tts : String → List Nat) (cache : List (String × List Nat))
    (i : Fin 10) :
    (get_filler tts cache i).1 ∈ FILLER_STATEMENTS ∧
    (get_filler tts cache i).2.2 = cache := by
  have h1 : (get_filler tts cache i).1 = FILLER_STATEMENTS.getD i.val "" := by
    simp only [get_filler]
    split <;> (try split) <;> simp [generate_audio]
  have h2 : (get_filler tts cache i).2.2 = cache := by
    simp only [get_filler]
    split <;> (try split) <;> simp [generate_audio]
  refine ⟨h1 ▸ ?_, h2⟩
  fin_cases i <;> decide

/-- Claim C10 (confirmed): a `get_response` or `check_response` body lacking
`session_id` is not rejected: both default the id to the literal string
`"default"`, behave exactly as if `"default"` had been passed, and
`get_response` registers the pending task (and the session) under
`"default"`, the single shared session of all such clients. -/
theorem c10_default_session (st : ServerState) (t : String) (txt : Option String) :
    (get_response st (some ⟨some t, none⟩)).1 = .processing ∧
    get_response st (some ⟨some t, none⟩) = get_response st (some ⟨some t, some "default"⟩) ∧
    check_response st ⟨txt, none⟩ = check_response st ⟨txt, some "default"⟩ ∧
    lookupA "default" (get_response st (some ⟨some t, none⟩)).2.response_threads
      = some ⟨none, none, false⟩ ∧
    (lookupA "default" (get_response st (some ⟨some t, none⟩)).2.sessions).isSome = true := by
  refine ⟨rfl, rfl, rfl, ?_, ?_⟩
  · exact lookupA_insertA_self _ _ _
  · by_cases h : (lookupA "default" st.sessions).isSome
    · simp [get_response, h]
    · simp [get_response, h, lookupA_insertA_self]

end Frida
